import Mathlib

/-!
Verification development for the `midirec.py` MIDI recorder.

The Python source is shallowly embedded below: wall-clock durations and
timestamps become exact rationals, byte values become naturals, the
recorder object's mutable fields become a `RecState` record threaded
through `call` (the embedding of `MidiRecorder.__call__`), and the
auto-segmentation main loop becomes a fold over an interleaved stream of
incoming events and watchdog polls.
-/

namespace Midirec

/-- Python 3 built-in `round` on an exact value: nearest integer, ties to even. -/
def pyRound (q : ℚ) : ℤ :=
  let f : ℤ := ⌊q⌋
  if q - f < 1/2 then f
  else if (1 : ℚ)/2 < q - f then f + 1
  else if f % 2 = 0 then f else f + 1

/-- Modelled from the spec: nearest-integer rounding with ties rounded half
away from zero, the rounding mode the spec attributes to the quantizer.
Used only to compare the spec's words against the source's rounding. -/
def roundHalfAwayFromZeroSpec (q : ℚ) : ℤ :=
  if 0 ≤ q then ⌊q + 1/2⌋ else -⌊-q + 1/2⌋

/-- Embedding of `mido.bpm2tempo`: `int(round((60 * 1000000) / bpm))`,
microseconds per beat. -/
def bpm2tempo (bpm : ℚ) : ℤ :=
  pyRound (60 * 1000000 / bpm)

/-- Embedding of `mido.second2tick`: `second / scale` where
`scale = tempo * 1e-6 / ticks_per_beat`. -/
def second2tick (second ticks_per_beat : ℚ) (tempo : ℤ) : ℚ :=
  second / ((tempo : ℚ) * (1 / 1000000) / ticks_per_beat)

/-- The quantizer as composed in `__call__` line 89-90:
`int(round(mido.second2tick(abstime, ticks_per_beat, mido.bpm2tempo(tempo))))`. -/
def miditimeOf (second ticks_per_beat bpm : ℚ) : ℤ :=
  pyRound (second2tick second ticks_per_beat (bpm2tempo bpm))

/-- A raw incoming event as delivered by rtmidi: `(msg, deltatime)` with
`msg = [status, data1, data2]` and `deltatime` in seconds. -/
structure RawEvent where
  status : ℕ
  data1 : ℕ
  data2 : ℕ
  delta : ℚ
deriving DecidableEq

/-- The mido message type string passed to `Message(...)` in each branch. -/
inductive MsgType where
  | note_on
  | note_off
  | polytouch
  | control_change
  | program_change
  | aftertouch
  | pitchwheel
deriving DecidableEq

/-- A track entry as appended by `self.track.append(Message(...))`:
the message type, the channel (low nibble of the status byte), the two
data bytes, and the quantized `time` field. -/
structure Message where
  type : MsgType
  channel : ℕ
  data1 : ℕ
  data2 : ℕ
  time : ℤ
deriving DecidableEq

/-- The data keyword-argument names `__call__` passes to `mido.Message` for
each message type (source lines 93-121): `note=`/`velocity=` in the two note
branches and `control=`/`value=` in all five remaining branches. -/
def sourceKwargs : MsgType → List String
  | MsgType.note_on => ["note", "velocity"]
  | MsgType.note_off => ["note", "velocity"]
  | _ => ["control", "value"]

/-- Modelled from the external mido library (`mido.messages.specs`), which
the spec treats as a collaborator: the data attribute names each
channel-voice message type accepts as `Message` keyword arguments
(besides `channel` and `time`, which every type accepts). -/
def midoAttrs : MsgType → List String
  | MsgType.note_on => ["note", "velocity"]
  | MsgType.note_off => ["note", "velocity"]
  | MsgType.polytouch => ["note", "value"]
  | MsgType.control_change => ["control", "value"]
  | MsgType.program_change => ["program"]
  | MsgType.aftertouch => ["value"]
  | MsgType.pitchwheel => ["pitch"]

/-- mido's `Message` constructor validates the passed keyword names against
the type's attributes and raises ValueError iff one of them is invalid.
With the keyword names of this source that happens for exactly four of the
seven kinds: polytouch, program_change, aftertouch and pitchwheel. -/
def messageRaises (t : MsgType) : Bool :=
  !((sourceKwargs t).all fun k => (midoAttrs t).contains k)

/-- The mutable fields of the `MidiRecorder` object that `__call__` touches:
`tempo` and `debug` (set by `start_recording`), the running accumulator
`abstime`, the current `track`, `time_last_msg`, and the `ticks_per_beat`
of the open `MidiFile` (mido default 480). -/
structure RecState where
  tempo : ℚ
  debug : Bool
  abstime : ℚ
  track : List Message
  timeLastMsg : ℚ
  ticks_per_beat : ℚ
deriving DecidableEq

/-- Note Off event status nibble. -/
def STAT_NOFF : ℕ := 8
/-- Note On event status nibble. -/
def STAT_NON : ℕ := 9
/-- Polyphonic Key Pressure (Aftertouch) status nibble. -/
def STAT_PKEYPR : ℕ := 10
/-- Control Change status nibble. -/
def STAT_CCHNG : ℕ := 11
/-- Program Change status nibble. -/
def STAT_PCHNG : ℕ := 12
/-- Channel Pressure (After-touch) status nibble. -/
def STAT_CHANPR : ℕ := 13
/-- Pitch Wheel Change status nibble. -/
def STAT_PWHEEL : ℕ := 14

/-- Embedding of `MidiRecorder.__call__`. `now` stands for the value of
`datetime.now()` at the end of the call. Returns the new state together
with the list of verbose log lines emitted (names as in `self.verbose`).
Each recognized branch runs `self.track.append(Message(type, ...))`: when
the mido constructor rejects the passed keyword names (`messageRaises`),
the branch raises ValueError right there — nothing is appended, nothing is
logged, the note-branch reset and the trailing `time_last_msg` update are
both skipped, and only the `abstime += deltatime` from line 87 remains. -/
def call (st : RecState) (e : RawEvent) (now : ℚ) : RecState × List String :=
  let channel := e.status % 16
  let abstime := st.abstime + e.delta
  if e.status = 254 then
    ({ st with abstime := abstime }, [])
  else
    let miditime := miditimeOf abstime st.ticks_per_beat st.tempo
    if e.status / 16 = STAT_NON then
      if messageRaises MsgType.note_on then ({ st with abstime := abstime }, [])
      else
        ({ st with
             abstime := 0,
             track := st.track ++ [⟨MsgType.note_on, channel, e.data1, e.data2, miditime⟩],
             timeLastMsg := now },
         if st.debug then ["note_on"] else [])
    else if e.status / 16 = STAT_NOFF then
      if messageRaises MsgType.note_off then ({ st with abstime := abstime }, [])
      else
        ({ st with
             abstime := 0,
             track := st.track ++ [⟨MsgType.note_off, channel, e.data1, e.data2, miditime⟩],
             timeLastMsg := now },
         if st.debug then ["note_off"] else [])
    else if e.status / 16 = STAT_PKEYPR then
      if messageRaises MsgType.polytouch then ({ st with abstime := abstime }, [])
      else
        ({ st with
             abstime := abstime,
             track := st.track ++ [⟨MsgType.polytouch, channel, e.data1, e.data2, miditime⟩],
             timeLastMsg := now },
         if st.debug then ["polytouch"] else [])
    else if e.status / 16 = STAT_CCHNG then
      if messageRaises MsgType.control_change then ({ st with abstime := abstime }, [])
      else
        ({ st with
             abstime := abstime,
             track := st.track ++ [⟨MsgType.control_change, channel, e.data1, e.data2, miditime⟩],
             timeLastMsg := now },
         if st.debug then ["control_change"] else [])
    else if e.status / 16 = STAT_PCHNG then
      if messageRaises MsgType.program_change then ({ st with abstime := abstime }, [])
      else
        ({ st with
             abstime := abstime,
             track := st.track ++ [⟨MsgType.program_change, channel, e.data1, e.data2, miditime⟩],
             timeLastMsg := now },
         if st.debug then ["program_change"] else [])
    else if e.status / 16 = STAT_CHANPR then
      if messageRaises MsgType.aftertouch then ({ st with abstime := abstime }, [])
      else
        ({ st with
             abstime := abstime,
             track := st.track ++ [⟨MsgType.aftertouch, channel, e.data1, e.data2, miditime⟩],
             timeLastMsg := now },
         if st.debug then ["aftertouch"] else [])
    else if e.status / 16 = STAT_PWHEEL then
      if messageRaises MsgType.pitchwheel then ({ st with abstime := abstime }, [])
      else
        ({ st with
             abstime := abstime,
             track := st.track ++ [⟨MsgType.pitchwheel, channel, e.data1, e.data2, miditime⟩],
             timeLastMsg := now },
         if st.debug then ["pitchwheel"] else [])
    else
      ({ st with abstime := abstime, timeLastMsg := now },
       if st.debug then ["unknown"] else [])

/-- Run `call` over a list of timed events (state part only). -/
def runRec (st : RecState) (evs : List (RawEvent × ℚ)) : RecState :=
  evs.foldl (fun s p => (call s p.1 p.2).1) st

/-- The recorder state right after the `start_recording` initialisation
(before the buffered event, if any, is replayed): `abstime = 0`, a fresh
empty track, `ticks_per_beat = 480` (mido `MidiFile` default). `tlm` is the
`time_last_msg` currently held (set by `wait_first_event`). -/
def fresh (tempo : ℚ) (dbg : Bool) (tlm : ℚ) : RecState :=
  ⟨tempo, dbg, 0, [], tlm, 480⟩

/-- Embedding of `MidiRecorder.start_recording`: initialise the fresh state,
then, if a first event is buffered in `self.msg`, replay it through
`__call__` (with `now` the wall-clock time of the replay). -/
def start_recording (tempo : ℚ) (dbg : Bool) (msg : Option RawEvent) (tlm now : ℚ) : RecState :=
  match msg with
  | some e => (call (fresh tempo dbg tlm) e now).1
  | none => fresh tempo dbg tlm

/-- Embedding of `MidiRecorder.wait_first_event` over a finite incoming
stream: skip events whose status byte is 254 (active sense) or 0 (falsy),
return the first accepted timed event and the remaining stream. -/
def wait_first_event : List (RawEvent × ℚ) → Option ((RawEvent × ℚ) × List (RawEvent × ℚ))
  | [] => none
  | (e, t) :: rest =>
    if e.status ≠ 254 ∧ e.status ≠ 0 then some ((e, t), rest)
    else wait_first_event rest

/-- One happening observed by the `__main__` loop: either an incoming raw
event delivered by the callback thread at wall-clock time `now`, or one
pass of the polling loop at wall-clock time `now`. -/
inductive Inp where
  | ev : RawEvent → ℚ → Inp
  | poll : ℚ → Inp

/-- State of the `__main__` auto-segmentation loop: the recorder, the files
saved so far (filename timestamp paired with the track contents), the
pending filename timestamp, and whether the loop is blocked in
`wait_first_event` (after a rotation, before the next accepted event). -/
structure AutoState where
  recorder : RecState
  saved : List (ℚ × List Message)
  fname : ℚ
  waiting : Bool

/-- The persisted files after the program terminates normally or by
interrupt: the rotated files plus the final `save_track` of the current
track under the current filename. -/
def finalFiles (st : AutoState) : List (ℚ × List Message) :=
  st.saved ++ [(st.fname, st.recorder.track)]

/-- Outcome of the `try` block around the program loop: the loop itself is
infinite, so it ends only by an interrupt or some other exception. -/
inductive Outcome where
  | interrupt
  | err
deriving DecidableEq

/-- Observable result of process shutdown: the exit code, whether the final
`recorder.save_track(filename)` at the bottom of the script ran, and
whether the exception handler's logging call itself succeeded. -/
structure ProcResult where
  exitCode : ℕ
  finalFlush : Bool
  handlerLogOk : Bool
deriving DecidableEq

/-- Number of conversion specifiers in the handler's format string
(it contains no escaped percent signs, so counting percent characters
is exact). -/
def specifierCount (s : String) : ℕ :=
  s.toList.count '%'

/-- The format string of the `except Exception` handler, source line 221. -/
def exceptLogFmt : String := "%s: %s %s"

/-- Number of values in the tuple applied to the format string on source
line 222: `(type(e).__name__, str(e))`. -/
def exceptLogArgc : ℕ := 2

/-- Python percent-formatting succeeds exactly when the argument count
matches the specifier count; otherwise it raises a TypeError. -/
def pyPercentFormatOk (fmt : String) (argc : ℕ) : Bool :=
  specifierCount fmt = argc

/-- Embedding of the tail of `__main__` (source lines 218-227): an
interrupt is swallowed by `pass`, so control falls through to
`close_port` / `save_track` and the process exits 0. Any other exception
enters the handler, which first evaluates the percent-format expression:
if that fails the handler itself raises and the interpreter exits 1; if it
succeeded, `sys.exit(1)` would run next. Either way the final
`save_track` below the `try` block is never reached on this path. -/
def runShutdown : Outcome → ProcResult
  | Outcome.interrupt => ⟨0, true, true⟩
  | Outcome.err =>
    if pyPercentFormatOk exceptLogFmt exceptLogArgc then ⟨1, false, true⟩
    else ⟨1, false, false⟩

/-- The message type selected by the `elif` chain for a recognized status
nibble (meaningful for nibbles 8-14). -/
def kindOf (nib : ℕ) : MsgType :=
  if nib = STAT_NON then MsgType.note_on
  else if nib = STAT_NOFF then MsgType.note_off
  else if nib = STAT_PKEYPR then MsgType.polytouch
  else if nib = STAT_CCHNG then MsgType.control_change
  else if nib = STAT_PCHNG then MsgType.program_change
  else if nib = STAT_CHANPR then MsgType.aftertouch
  else MsgType.pitchwheel

/-- Whether processing this event in `__call__` raises: exactly the
recognized channel-voice kinds whose mido keyword names are invalid.
Active-sense and unrecognized statuses never reach a Message constructor. -/
def callRaises (e : RawEvent) : Bool :=
  if e.status = 254 then false
  else if 8 ≤ e.status / 16 ∧ e.status / 16 ≤ 14 then
    messageRaises (kindOf (e.status / 16))
  else false

/-- One step of the `__main__` loop in auto mode, with the error escape kept
explicit. `Sum.inl` is the running loop; `Sum.inr` is a terminated process
(its persisted files and shutdown result). While waiting, an incoming event
is screened exactly as `wait_first_event` screens it; on acceptance the
replay in `start_recording` runs on the program thread, so a ValueError
from a kwarg-broken kind propagates to the top-level handler (exit 1, no
further file written); otherwise a new filename timestamp is taken and
recording resumes. While recording, events are processed in the rtmidi
callback, whose wrapper swallows exceptions, so only `call`'s partial state
effect remains. A poll while recording rotates (saves the current track
under the current filename and goes back to waiting) exactly when
`now > time_last_msg + timeout`. -/
def autoStepE (timeout : ℚ) (dbg : Bool)
    (s : AutoState ⊕ (List (ℚ × List Message) × ProcResult)) (i : Inp) :
    AutoState ⊕ (List (ℚ × List Message) × ProcResult) :=
  match s, i with
  | Sum.inr d, _ => Sum.inr d
  | Sum.inl st, Inp.ev e now =>
    if st.waiting then
      if e.status ≠ 254 ∧ e.status ≠ 0 then
        if callRaises e then Sum.inr (st.saved, runShutdown Outcome.err)
        else Sum.inl ⟨start_recording 120 dbg (some e) now now, st.saved, now, false⟩
      else Sum.inl st
    else Sum.inl ⟨(call st.recorder e now).1, st.saved, st.fname, st.waiting⟩
  | Sum.inl st, Inp.poll now =>
    if st.waiting then Sum.inl st
    else if st.recorder.timeLastMsg + timeout < now then
      Sum.inl ⟨st.recorder, st.saved ++ [(st.fname, st.recorder.track)], st.fname, true⟩
    else Sum.inl st

/-- Fold of `autoStepE` over a stream of happenings. -/
def runAutoE (timeout : ℚ) (dbg : Bool)
    (s : AutoState ⊕ (List (ℚ × List Message) × ProcResult)) (inps : List Inp) :
    AutoState ⊕ (List (ℚ × List Message) × ProcResult) :=
  inps.foldl (autoStepE timeout dbg) s

/-- The straight-line startup of `__main__` (source lines 173-175 and
190-195): in auto mode the first filename embeds the start-up timestamp
`tinit`; then `wait_first_event` accepts the first event `e0` at time `t0`
and `start_recording` replays it on the program thread — if that replay
raises, the process dies through the top-level handler with no file
written; otherwise the loop starts in the recording state. -/
def mainStartE (dbg : Bool) (tinit : ℚ) (e0 : RawEvent) (t0 : ℚ) :
    AutoState ⊕ (List (ℚ × List Message) × ProcResult) :=
  if callRaises e0 then Sum.inr ([], runShutdown Outcome.err)
  else Sum.inl ⟨start_recording 120 dbg (some e0) t0 t0, [], tinit, false⟩

/-- What the process leaves behind: if the loop was still running, an
interrupt flushes the current track as a final file (exit 0); if it had
already terminated on an escaped exception, the files and result recorded
at that point. -/
def autoOutcome (s : AutoState ⊕ (List (ℚ × List Message) × ProcResult)) :
    List (ℚ × List Message) × ProcResult :=
  match s with
  | Sum.inl st => (finalFiles st, runShutdown Outcome.interrupt)
  | Sum.inr d => d

/-- Total `delta_seconds` of a timed event list. -/
def deltaSum (evs : List (RawEvent × ℚ)) : ℚ :=
  (evs.map (fun p => p.1.delta)).sum

/-- Sum of the `time` fields of a list of track messages. -/
def trackTicksSum (trk : List Message) : ℤ :=
  (trk.map Message.time).sum

lemma status_ne_254_of_nibble_le (e : RawEvent) (h : e.status / 16 ≤ 14) :
    e.status ≠ 254 := by
  intro hs
  rw [hs] at h
  norm_num at h

lemma messageRaises_note_on : messageRaises MsgType.note_on = false := by decide

lemma messageRaises_note_off : messageRaises MsgType.note_off = false := by decide

lemma messageRaises_control_change :
    messageRaises MsgType.control_change = false := by decide

lemma messageRaises_polytouch : messageRaises MsgType.polytouch = true := by decide

lemma messageRaises_program_change :
    messageRaises MsgType.program_change = true := by decide

lemma messageRaises_aftertouch : messageRaises MsgType.aftertouch = true := by decide

lemma messageRaises_pitchwheel : messageRaises MsgType.pitchwheel = true := by decide

lemma runShutdown_err : runShutdown Outcome.err = ⟨1, false, false⟩ := by decide

lemma call_fst_tempo (st : RecState) (e : RawEvent) (now : ℚ) :
    (call st e now).1.tempo = st.tempo := by
  rw [call]
  simp only [messageRaises_note_on, messageRaises_note_off,
    messageRaises_control_change, messageRaises_polytouch,
    messageRaises_program_change, messageRaises_aftertouch,
    messageRaises_pitchwheel, Bool.false_eq_true, eq_self_iff_true,
    if_true, if_false]
  split
  · rfl
  · split <;> try rfl
    split <;> try rfl
    split <;> try rfl
    split <;> try rfl
    split <;> try rfl
    split <;> try rfl
    split <;> rfl

lemma call_fst_ticks_per_beat (st : RecState) (e : RawEvent) (now : ℚ) :
    (call st e now).1.ticks_per_beat = st.ticks_per_beat := by
  rw [call]
  simp only [messageRaises_note_on, messageRaises_note_off,
    messageRaises_control_change, messageRaises_polytouch,
    messageRaises_program_change, messageRaises_aftertouch,
    messageRaises_pitchwheel, Bool.false_eq_true, eq_self_iff_true,
    if_true, if_false]
  split
  · rfl
  · split <;> try rfl
    split <;> try rfl
    split <;> try rfl
    split <;> try rfl
    split <;> try rfl
    split <;> try rfl
    split <;> rfl

lemma call_fst_debug (st : RecState) (e : RawEvent) (now : ℚ) :
    (call st e now).1.debug = st.debug := by
  rw [call]
  simp only [messageRaises_note_on, messageRaises_note_off,
    messageRaises_control_change, messageRaises_polytouch,
    messageRaises_program_change, messageRaises_aftertouch,
    messageRaises_pitchwheel, Bool.false_eq_true, eq_self_iff_true,
    if_true, if_false]
  split
  · rfl
  · split <;> try rfl
    split <;> try rfl
    split <;> try rfl
    split <;> try rfl
    split <;> try rfl
    split <;> try rfl
    split <;> rfl

lemma call_fst_abstime (st : RecState) (e : RawEvent) (now : ℚ) :
    (call st e now).1.abstime =
      if e.status / 16 = STAT_NON ∨ e.status / 16 = STAT_NOFF then 0
      else st.abstime + e.delta := by
  rw [call]
  simp only [messageRaises_note_on, messageRaises_note_off,
    messageRaises_control_change, messageRaises_polytouch,
    messageRaises_program_change, messageRaises_aftertouch,
    messageRaises_pitchwheel, Bool.false_eq_true, eq_self_iff_true,
    if_true, if_false]
  by_cases h254 : e.status = 254
  · have hn : ¬ (e.status / 16 = STAT_NON ∨ e.status / 16 = STAT_NOFF) := by
      simp only [STAT_NON, STAT_NOFF]
      omega
    rw [if_pos h254, if_neg hn]
  · rw [if_neg h254]
    by_cases h9 : e.status / 16 = STAT_NON
    · rw [if_pos h9, if_pos (Or.inl h9)]
    · rw [if_neg h9]
      by_cases h8 : e.status / 16 = STAT_NOFF
      · rw [if_pos h8, if_pos (Or.inr h8)]
      · have hn : ¬ (e.status / 16 = STAT_NON ∨ e.status / 16 = STAT_NOFF) := by
          tauto
        rw [if_neg h8, if_neg hn]
        split <;> try rfl
        split <;> try rfl
        split <;> try rfl
        split <;> try rfl
        split <;> rfl

lemma call_fst_timeLastMsg (st : RecState) (e : RawEvent) (now : ℚ) :
    (call st e now).1.timeLastMsg =
      if e.status = 254 ∨ callRaises e = true then st.timeLastMsg else now := by
  by_cases h254 : e.status = 254
  · rw [call, if_pos h254, if_pos (Or.inl h254)]
  · by_cases hrec : 8 ≤ e.status / 16 ∧ e.status / 16 ≤ 14
    · have hcr : callRaises e = messageRaises (kindOf (e.status / 16)) := by
        rw [callRaises, if_neg h254, if_pos hrec]
      have hv : e.status / 16 = 8 ∨ e.status / 16 = 9 ∨ e.status / 16 = 10 ∨
          e.status / 16 = 11 ∨ e.status / 16 = 12 ∨ e.status / 16 = 13 ∨
          e.status / 16 = 14 := by omega
      rcases hv with h | h | h | h | h | h | h <;>
        rw [call] <;>
        simp [h, h254, hcr, kindOf, STAT_NOFF, STAT_NON, STAT_PKEYPR, STAT_CCHNG,
          STAT_PCHNG, STAT_CHANPR, STAT_PWHEEL, messageRaises_note_on,
          messageRaises_note_off, messageRaises_control_change,
          messageRaises_polytouch, messageRaises_program_change,
          messageRaises_aftertouch, messageRaises_pitchwheel]
    · have hcr : callRaises e = false := by
        rw [callRaises, if_neg h254, if_neg hrec]
      have h9 : ¬ e.status / 16 = STAT_NON := by simp only [STAT_NON]; omega
      have h8 : ¬ e.status / 16 = STAT_NOFF := by simp only [STAT_NOFF]; omega
      have h10 : ¬ e.status / 16 = STAT_PKEYPR := by simp only [STAT_PKEYPR]; omega
      have h11 : ¬ e.status / 16 = STAT_CCHNG := by simp only [STAT_CCHNG]; omega
      have h12 : ¬ e.status / 16 = STAT_PCHNG := by simp only [STAT_PCHNG]; omega
      have h13 : ¬ e.status / 16 = STAT_CHANPR := by simp only [STAT_CHANPR]; omega
      have h14 : ¬ e.status / 16 = STAT_PWHEEL := by simp only [STAT_PWHEEL]; omega
      have hright :
          (if e.status = 254 ∨ callRaises e = true then st.timeLastMsg else now) =
            now :=
        if_neg (by simp [h254, hcr])
      rw [call, if_neg h254, if_neg h9, if_neg h8, if_neg h10, if_neg h11,
        if_neg h12, if_neg h13, if_neg h14, hright]

lemma call_fst_track_recognized (st : RecState) (e : RawEvent) (now : ℚ)
    (h8 : 8 ≤ e.status / 16) (h14 : e.status / 16 ≤ 14)
    (hok : messageRaises (kindOf (e.status / 16)) = false) :
    (call st e now).1.track = st.track ++
      [⟨kindOf (e.status / 16), e.status % 16, e.data1, e.data2,
        miditimeOf (st.abstime + e.delta) st.ticks_per_beat st.tempo⟩] := by
  have h254 : ¬ e.status = 254 := status_ne_254_of_nibble_le e h14
  have hv : e.status / 16 = 8 ∨ e.status / 16 = 9 ∨ e.status / 16 = 10 ∨
      e.status / 16 = 11 ∨ e.status / 16 = 12 ∨ e.status / 16 = 13 ∨
      e.status / 16 = 14 := by omega
  rcases hv with h | h | h | h | h | h | h
  · rw [call]
    simp [h, h254, kindOf, STAT_NOFF, STAT_NON, STAT_PKEYPR, STAT_CCHNG,
      STAT_PCHNG, STAT_CHANPR, STAT_PWHEEL, messageRaises_note_on,
      messageRaises_note_off, messageRaises_control_change]
  · rw [call]
    simp [h, h254, kindOf, STAT_NOFF, STAT_NON, STAT_PKEYPR, STAT_CCHNG,
      STAT_PCHNG, STAT_CHANPR, STAT_PWHEEL, messageRaises_note_on,
      messageRaises_note_off, messageRaises_control_change]
  · exact absurd hok (by rw [h]; decide)
  · rw [call]
    simp [h, h254, kindOf, STAT_NOFF, STAT_NON, STAT_PKEYPR, STAT_CCHNG,
      STAT_PCHNG, STAT_CHANPR, STAT_PWHEEL, messageRaises_note_on,
      messageRaises_note_off, messageRaises_control_change]
  · exact absurd hok (by rw [h]; decide)
  · exact absurd hok (by rw [h]; decide)
  · exact absurd hok (by rw [h]; decide)

lemma call_raise_state (st : RecState) (e : RawEvent) (now : ℚ)
    (hr : callRaises e = true) :
    (call st e now).1 = { st with abstime := st.abstime + e.delta } ∧
    (call st e now).2 = [] := by
  have h254 : ¬ e.status = 254 := by
    intro h
    rw [callRaises, if_pos h] at hr
    exact Bool.false_ne_true hr
  have hrec : 8 ≤ e.status / 16 ∧ e.status / 16 ≤ 14 := by
    by_contra hc
    rw [callRaises, if_neg h254, if_neg hc] at hr
    exact Bool.false_ne_true hr
  have hmr : messageRaises (kindOf (e.status / 16)) = true := by
    rw [callRaises, if_neg h254, if_pos hrec] at hr
    exact hr
  obtain ⟨hh8, hh14⟩ := hrec
  have hv : e.status / 16 = 8 ∨ e.status / 16 = 9 ∨ e.status / 16 = 10 ∨
      e.status / 16 = 11 ∨ e.status / 16 = 12 ∨ e.status / 16 = 13 ∨
      e.status / 16 = 14 := by omega
  rcases hv with h | h | h | h | h | h | h
  · exact absurd hmr (by rw [h]; decide)
  · exact absurd hmr (by rw [h]; decide)
  · constructor <;>
      (rw [call];
       simp [h, h254, STAT_NON, STAT_NOFF, STAT_PKEYPR, messageRaises_polytouch])
  · exact absurd hmr (by rw [h]; decide)
  · constructor <;>
      (rw [call];
       simp [h, h254, STAT_NON, STAT_NOFF, STAT_PKEYPR, STAT_CCHNG, STAT_PCHNG,
         messageRaises_program_change])
  · constructor <;>
      (rw [call];
       simp [h, h254, STAT_NON, STAT_NOFF, STAT_PKEYPR, STAT_CCHNG, STAT_PCHNG,
         STAT_CHANPR, messageRaises_aftertouch])
  · constructor <;>
      (rw [call];
       simp [h, h254, STAT_NON, STAT_NOFF, STAT_PKEYPR, STAT_CCHNG, STAT_PCHNG,
         STAT_CHANPR, STAT_PWHEEL, messageRaises_pitchwheel])

lemma call_fst_track_unrecognized (st : RecState) (e : RawEvent) (now : ℚ)
    (h : ¬ (8 ≤ e.status / 16 ∧ e.status / 16 ≤ 14)) :
    (call st e now).1.track = st.track := by
  have h9 : ¬ e.status / 16 = STAT_NON := by simp only [STAT_NON]; omega
  have h8 : ¬ e.status / 16 = STAT_NOFF := by simp only [STAT_NOFF]; omega
  have h10 : ¬ e.status / 16 = STAT_PKEYPR := by simp only [STAT_PKEYPR]; omega
  have h11 : ¬ e.status / 16 = STAT_CCHNG := by simp only [STAT_CCHNG]; omega
  have h12 : ¬ e.status / 16 = STAT_PCHNG := by simp only [STAT_PCHNG]; omega
  have h13 : ¬ e.status / 16 = STAT_CHANPR := by simp only [STAT_CHANPR]; omega
  have h14 : ¬ e.status / 16 = STAT_PWHEEL := by simp only [STAT_PWHEEL]; omega
  rw [call]
  by_cases h254 : e.status = 254
  · rw [if_pos h254]
  · rw [if_neg h254, if_neg h9, if_neg h8, if_neg h10, if_neg h11, if_neg h12,
      if_neg h13, if_neg h14]

lemma call_snd_unrecognized (st : RecState) (e : RawEvent) (now : ℚ)
    (h : ¬ (8 ≤ e.status / 16 ∧ e.status / 16 ≤ 14)) :
    (call st e now).2 =
      if e.status = 254 then [] else if st.debug then ["unknown"] else [] := by
  have h9 : ¬ e.status / 16 = STAT_NON := by simp only [STAT_NON]; omega
  have h8 : ¬ e.status / 16 = STAT_NOFF := by simp only [STAT_NOFF]; omega
  have h10 : ¬ e.status / 16 = STAT_PKEYPR := by simp only [STAT_PKEYPR]; omega
  have h11 : ¬ e.status / 16 = STAT_CCHNG := by simp only [STAT_CCHNG]; omega
  have h12 : ¬ e.status / 16 = STAT_PCHNG := by simp only [STAT_PCHNG]; omega
  have h13 : ¬ e.status / 16 = STAT_CHANPR := by simp only [STAT_CHANPR]; omega
  have h14 : ¬ e.status / 16 = STAT_PWHEEL := by simp only [STAT_PWHEEL]; omega
  rw [call]
  by_cases h254 : e.status = 254
  · rw [if_pos h254, if_pos h254]
  · rw [if_neg h254, if_neg h254, if_neg h9, if_neg h8, if_neg h10, if_neg h11,
      if_neg h12, if_neg h13, if_neg h14]

lemma call_track_append (st : RecState) (e : RawEvent) (now : ℚ) :
    ∃ tl, (call st e now).1.track = st.track ++ tl := by
  by_cases hr : callRaises e = true
  · refine ⟨[], ?_⟩
    rw [(call_raise_state st e now hr).1]
    simp
  · by_cases hrec : 8 ≤ e.status / 16 ∧ e.status / 16 ≤ 14
    · have hok : messageRaises (kindOf (e.status / 16)) = false := by
        have h254 : ¬ e.status = 254 := status_ne_254_of_nibble_le e hrec.2
        rw [callRaises, if_neg h254, if_pos hrec] at hr
        exact Bool.eq_false_iff.mpr hr
      exact ⟨_, call_fst_track_recognized st e now hrec.1 hrec.2 hok⟩
    · exact ⟨[], by rw [call_fst_track_unrecognized st e now hrec]; simp⟩

lemma runRec_nil (st : RecState) : runRec st [] = st := rfl

lemma runRec_cons (st : RecState) (p : RawEvent × ℚ) (evs : List (RawEvent × ℚ)) :
    runRec st (p :: evs) = runRec (call st p.1 p.2).1 evs := rfl

lemma runRec_fst_tempo (evs : List (RawEvent × ℚ)) : ∀ st : RecState,
    (runRec st evs).tempo = st.tempo := by
  induction evs with
  | nil => intro st; rfl
  | cons p rest ih => intro st; rw [runRec_cons, ih, call_fst_tempo]

lemma runRec_fst_ticks_per_beat (evs : List (RawEvent × ℚ)) : ∀ st : RecState,
    (runRec st evs).ticks_per_beat = st.ticks_per_beat := by
  induction evs with
  | nil => intro st; rfl
  | cons p rest ih => intro st; rw [runRec_cons, ih, call_fst_ticks_per_beat]

lemma runRec_track_append (evs : List (RawEvent × ℚ)) : ∀ st : RecState,
    ∃ tl, (runRec st evs).track = st.track ++ tl := by
  induction evs with
  | nil => intro st; exact ⟨[], by simp [runRec_nil]⟩
  | cons p rest ih =>
    intro st
    obtain ⟨t1, h1⟩ := call_track_append st p.1 p.2
    obtain ⟨t2, h2⟩ := ih (call st p.1 p.2).1
    exact ⟨t1 ++ t2, by rw [runRec_cons, h2, h1, List.append_assoc]⟩

lemma runRec_nonemitting (evs : List (RawEvent × ℚ)) : ∀ st : RecState,
    (∀ p ∈ evs, ¬ (8 ≤ p.1.status / 16 ∧ p.1.status / 16 ≤ 14)) →
    (runRec st evs).track = st.track ∧
    (runRec st evs).abstime = st.abstime + deltaSum evs := by
  induction evs with
  | nil => intro st _; simp [runRec_nil, deltaSum]
  | cons p rest ih =>
    intro st h
    have hp := h p (List.mem_cons_self p rest)
    have hnib : ¬ (p.1.status / 16 = STAT_NON ∨ p.1.status / 16 = STAT_NOFF) := by
      simp only [STAT_NON, STAT_NOFF]
      omega
    have htr := call_fst_track_unrecognized st p.1 p.2 hp
    have hab := call_fst_abstime st p.1 p.2
    rw [if_neg hnib] at hab
    obtain ⟨ih1, ih2⟩ := ih (call st p.1 p.2).1 (fun q hq => h q (List.mem_cons_of_mem _ hq))
    refine ⟨by rw [runRec_cons, ih1, htr], ?_⟩
    rw [runRec_cons, ih2, hab]
    simp [deltaSum]
    ring

lemma runAutoE_nil (timeout : ℚ) (dbg : Bool)
    (s : AutoState ⊕ (List (ℚ × List Message) × ProcResult)) :
    runAutoE timeout dbg s [] = s := rfl

lemma runAutoE_cons (timeout : ℚ) (dbg : Bool)
    (s : AutoState ⊕ (List (ℚ × List Message) × ProcResult)) (i : Inp)
    (inps : List Inp) :
    runAutoE timeout dbg s (i :: inps) =
      runAutoE timeout dbg (autoStepE timeout dbg s i) inps := rfl

lemma runAutoE_append (timeout : ℚ) (dbg : Bool)
    (s : AutoState ⊕ (List (ℚ × List Message) × ProcResult)) (a b : List Inp) :
    runAutoE timeout dbg s (a ++ b) =
      runAutoE timeout dbg (runAutoE timeout dbg s a) b := by
  simp [runAutoE, List.foldl_append]

lemma autoStepE_ev_recording (timeout : ℚ) (dbg : Bool) (r : RecState)
    (sv : List (ℚ × List Message)) (fn : ℚ) (e : RawEvent) (now : ℚ) :
    autoStepE timeout dbg (Sum.inl ⟨r, sv, fn, false⟩) (Inp.ev e now) =
      Sum.inl ⟨(call r e now).1, sv, fn, false⟩ := by
  simp [autoStepE]

lemma autoStepE_ev_accept_ok (timeout : ℚ) (dbg : Bool) (r : RecState)
    (sv : List (ℚ × List Message)) (fn : ℚ) (e : RawEvent) (now : ℚ)
    (h : e.status ≠ 254 ∧ e.status ≠ 0) (hok : callRaises e = false) :
    autoStepE timeout dbg (Sum.inl ⟨r, sv, fn, true⟩) (Inp.ev e now) =
      Sum.inl ⟨start_recording 120 dbg (some e) now now, sv, now, false⟩ := by
  simp [autoStepE, h.1, h.2, hok]

lemma autoStepE_ev_accept_raise (timeout : ℚ) (dbg : Bool) (r : RecState)
    (sv : List (ℚ × List Message)) (fn : ℚ) (e : RawEvent) (now : ℚ)
    (h : e.status ≠ 254 ∧ e.status ≠ 0) (hr : callRaises e = true) :
    autoStepE timeout dbg (Sum.inl ⟨r, sv, fn, true⟩) (Inp.ev e now) =
      Sum.inr (sv, runShutdown Outcome.err) := by
  simp [autoStepE, h.1, h.2, hr]

lemma autoStepE_poll_rotate (timeout : ℚ) (dbg : Bool) (r : RecState)
    (sv : List (ℚ × List Message)) (fn : ℚ) (now : ℚ)
    (h : r.timeLastMsg + timeout < now) :
    autoStepE timeout dbg (Sum.inl ⟨r, sv, fn, false⟩) (Inp.poll now) =
      Sum.inl ⟨r, sv ++ [(fn, r.track)], fn, true⟩ := by
  simp [autoStepE, h]

lemma autoStepE_poll_idle (timeout : ℚ) (dbg : Bool) (r : RecState)
    (sv : List (ℚ × List Message)) (fn : ℚ) (now : ℚ)
    (h : ¬ (r.timeLastMsg + timeout < now)) :
    autoStepE timeout dbg (Sum.inl ⟨r, sv, fn, false⟩) (Inp.poll now) =
      Sum.inl ⟨r, sv, fn, false⟩ := by
  simp [autoStepE, h]

lemma runAutoE_events (timeout : ℚ) (dbg : Bool) (evs : List (RawEvent × ℚ)) :
    ∀ (r : RecState) (sv : List (ℚ × List Message)) (fn : ℚ),
    runAutoE timeout dbg (Sum.inl ⟨r, sv, fn, false⟩)
        (evs.map fun p => Inp.ev p.1 p.2) =
      Sum.inl ⟨runRec r evs, sv, fn, false⟩ := by
  induction evs with
  | nil => intro r sv fn; rfl
  | cons p rest ih =>
    intro r sv fn
    rw [List.map_cons, runAutoE_cons, autoStepE_ev_recording, ih, ← runRec_cons]

lemma pyRound_intCast (n : ℤ) : pyRound (n : ℚ) = n := by
  unfold pyRound
  rw [Int.floor_intCast]
  norm_num

lemma bpm2tempo_exact (bpm : ℚ) (t : ℤ) (ht : (t : ℚ) * bpm = 60 * 1000000) :
    bpm2tempo bpm = t := by
  have hbpm : bpm ≠ 0 := by
    intro h
    rw [h, mul_zero] at ht
    norm_num at ht
  have hd : (60 * 1000000 : ℚ) / bpm = (t : ℚ) := by
    field_simp
    linarith [ht]
  unfold bpm2tempo
  rw [hd, pyRound_intCast]

lemma second2tick_exact (s tpb bpm : ℚ) (t : ℤ)
    (ht : (t : ℚ) * bpm = 60 * 1000000) :
    second2tick s tpb t = s * tpb * bpm / 60 := by
  have hbpm : bpm ≠ 0 := by
    intro h
    rw [h, mul_zero] at ht
    norm_num at ht
  have htq : (t : ℚ) ≠ 0 := by
    intro h
    rw [h, zero_mul] at ht
    norm_num at ht
  unfold second2tick
  field_simp
  linear_combination (-(s * tpb)) * ht

lemma start_recording_some (tempo : ℚ) (dbg : Bool) (e : RawEvent) (tlm now : ℚ) :
    start_recording tempo dbg (some e) tlm now = (call (fresh tempo dbg tlm) e now).1 :=
  rfl

lemma start_recording_track_recognized (tempo : ℚ) (dbg : Bool) (e : RawEvent)
    (tlm now : ℚ) (h8 : 8 ≤ e.status / 16) (h14 : e.status / 16 ≤ 14)
    (hok : messageRaises (kindOf (e.status / 16)) = false) :
    (start_recording tempo dbg (some e) tlm now).track =
      [⟨kindOf (e.status / 16), e.status % 16, e.data1, e.data2,
        miditimeOf (0 + e.delta) 480 tempo⟩] := by
  rw [start_recording_some, call_fst_track_recognized _ _ _ h8 h14 hok]
  simp [fresh]

/-- C3: the timing accumulator `abstime` is reset to 0 exactly when a NoteOn
or NoteOff event is processed; after every other event (the five other
recognized channel-voice kinds, unknown-status events, and active sense) it
continues accumulating: its new value is the old value plus the event's
delta_seconds. -/
theorem spec_c3_accumulator_reset (st : RecState) (e : RawEvent) (now : ℚ) :
    (call st e now).1.abstime =
      if e.status / 16 = STAT_NON ∨ e.status / 16 = STAT_NOFF then 0
      else st.abstime + e.delta :=
  call_fst_abstime st e now

/-- C4: the claim is the intent but the code breaks it for four of the seven
kinds. NoteOn, NoteOff and ControlChange are appended without error with
channel = low nibble and the event's data bytes (final conjunct); but the
polytouch, program_change, aftertouch and pitchwheel branches pass the
keyword names `control=`/`value=`, which mido's `Message` constructor
rejects, so a recognized event of those kinds raises ValueError: at status
0xC0 (ProgramChange) nothing is appended and `time_last_msg` stays
untouched. -/
theorem spec_c4_kwarg_bug :
    messageRaises MsgType.polytouch = true ∧
    messageRaises MsgType.program_change = true ∧
    messageRaises MsgType.aftertouch = true ∧
    messageRaises MsgType.pitchwheel = true ∧
    callRaises ⟨192, 5, 0, 1⟩ = true ∧
    (call (fresh 120 false 0) ⟨192, 5, 0, 1⟩ 7).1.track = [] ∧
    (call (fresh 120 false 0) ⟨192, 5, 0, 1⟩ 7).1.timeLastMsg = 0 ∧
    messageRaises MsgType.note_on = false ∧
    (call (fresh 120 false 0) ⟨144, 60, 100, 1⟩ 7).1.track =
      [⟨MsgType.note_on, 0, 60, 100, 960⟩] := by
  refine ⟨by decide, by decide, by decide, by decide, by decide, ?_, ?_, by decide, ?_⟩
  · rw [(call_raise_state (fresh 120 false 0) ⟨192, 5, 0, 1⟩ 7 (by decide)).1]
    rfl
  · rw [(call_raise_state (fresh 120 false 0) ⟨192, 5, 0, 1⟩ 7 (by decide)).1]
    rfl
  · rw [call_fst_track_recognized (fresh 120 false 0) ⟨144, 60, 100, 1⟩ 7
      (by decide) (by decide) (by decide)]
    norm_num [fresh, kindOf, STAT_NON, miditimeOf, second2tick, bpm2tempo, pyRound]

/-- C8: an event whose status high nibble matches none of the seven
recognized channel-voice types appends nothing to the track and raises no
error; a log line is produced exactly when debug mode is on (and the event
is not active sense, which is filtered before logging). -/
theorem spec_c8_unknown_dropped (st : RecState) (e : RawEvent) (now : ℚ)
    (h : ¬ (8 ≤ e.status / 16 ∧ e.status / 16 ≤ 14)) :
    (call st e now).1.track = st.track ∧
    (call st e now).2 =
      if e.status = 254 then [] else if st.debug then ["unknown"] else [] :=
  ⟨call_fst_track_unrecognized st e now h, call_snd_unrecognized st e now h⟩

/-- Witness for C8: an event with status 127 (high nibble 7, unrecognized)
in debug mode appends nothing and logs one `unknown` line. -/
theorem spec_c8_unknown_dropped_witness :
    (call (fresh 120 true 0) ⟨127, 3, 4, 1⟩ 5).1.track = [] ∧
    (call (fresh 120 true 0) ⟨127, 3, 4, 1⟩ 5).2 = ["unknown"] := by
  have h := spec_c8_unknown_dropped (fresh 120 true 0) ⟨127, 3, 4, 1⟩ 5 (by decide)
  exact ⟨h.1, by rw [h.2]; rfl⟩

/-- C9: an active-sense event (status 0xFE) never produces a track message
wherever it occurs: `__call__` leaves the track unchanged while still
consuming its delta time into the accumulator, and `wait_first_event`
skips it. -/
theorem spec_c9_active_sense_noop (st : RecState) (e : RawEvent) (now t : ℚ)
    (rest : List (RawEvent × ℚ)) (h : e.status = 254) :
    (call st e now).1.track = st.track ∧
    (call st e now).1.abstime = st.abstime + e.delta ∧
    wait_first_event ((e, t) :: rest) = wait_first_event rest := by
  refine ⟨call_fst_track_unrecognized st e now (by rw [h]; decide), ?_, ?_⟩
  · rw [call_fst_abstime, if_neg (by rw [h]; decide)]
  · simp [wait_first_event, h]

/-- Witness for C9: a 0xFE event with delta 3 s leaves the fresh track empty,
moves the accumulator to 3, and is skipped by `wait_first_event`. -/
theorem spec_c9_active_sense_noop_witness :
    (call (fresh 120 false 0) ⟨254, 0, 0, 3⟩ 9).1.track = [] ∧
    (call (fresh 120 false 0) ⟨254, 0, 0, 3⟩ 9).1.abstime = 3 ∧
    wait_first_event [((⟨254, 0, 0, 3⟩ : RawEvent), (9 : ℚ))] = none := by
  obtain ⟨h1, h2, h3⟩ :=
    spec_c9_active_sense_noop (fresh 120 false 0) ⟨254, 0, 0, 3⟩ 9 9 [] rfl
  refine ⟨h1, ?_, by rw [h3]; rfl⟩
  rw [h2]
  norm_num [fresh]

/-- C10 counterexample: a ProgramChange event (status 0xC0) is not 0xFE,
yet its branch raises ValueError inside the mido `Message` constructor
before line 125 runs, so `time_last_msg` keeps its old value 5 instead of
being updated to the current wall-clock time 7. -/
theorem spec_c10_counterexample :
    (call (fresh 120 false 5) ⟨192, 5, 0, 1⟩ 7).1.timeLastMsg = 5 ∧ (5 : ℚ) ≠ 7 := by
  constructor
  · rw [(call_raise_state (fresh 120 false 5) ⟨192, 5, 0, 1⟩ 7 (by decide)).1]
    rfl
  · norm_num

/-- C10 amended: every processed event whose status is not 0xFE and whose
branch completes without raising — NoteOn, NoteOff, ControlChange and
unknown-nibble events — updates `time_last_msg` to the current wall-clock
time, so a stream of such events (in particular unknown-status ones)
indefinitely postpones the idle-timeout rotation; 0xFE events, and the four
recognized kinds whose mido keyword names are broken (which raise before
line 125), leave `time_last_msg` unchanged. -/
theorem spec_c10_last_msg_update (st : RecState) (e : RawEvent) (now : ℚ)
    (timeout tpoll : ℚ) (dbg : Bool) (sv : List (ℚ × List Message)) (fn : ℚ) :
    (e.status ≠ 254 → callRaises e = false → (call st e now).1.timeLastMsg = now) ∧
    (e.status = 254 ∨ callRaises e = true →
      (call st e now).1.timeLastMsg = st.timeLastMsg) ∧
    (e.status ≠ 254 → callRaises e = false → tpoll ≤ now + timeout →
      autoStepE timeout dbg (Sum.inl ⟨(call st e now).1, sv, fn, false⟩)
          (Inp.poll tpoll) =
        Sum.inl ⟨(call st e now).1, sv, fn, false⟩) := by
  refine ⟨fun h254 hok => ?_, fun h => ?_, fun h254 hok hle => ?_⟩
  · rw [call_fst_timeLastMsg, if_neg (by simp [h254, hok])]
  · rw [call_fst_timeLastMsg, if_pos h]
  · apply autoStepE_poll_idle
    rw [call_fst_timeLastMsg, if_neg (by simp [h254, hok])]
    exact not_lt.mpr hle

/-- Witness for C10: an unrecognized-status event (0xF0, nibble 15) at time
10 sets `time_last_msg` to 10, and a poll at time 14 with a 5 s timeout
does not rotate. -/
theorem spec_c10_last_msg_update_witness :
    ((call (fresh 120 false 0) ⟨240, 1, 2, 1⟩ 10).1.timeLastMsg = 10) ∧
    autoStepE 5 false
        (Sum.inl ⟨(call (fresh 120 false 0) ⟨240, 1, 2, 1⟩ 10).1, [], 0, false⟩)
        (Inp.poll 14) =
      Sum.inl ⟨(call (fresh 120 false 0) ⟨240, 1, 2, 1⟩ 10).1, [], 0, false⟩ := by
  obtain ⟨h1, h2, h3⟩ :=
    spec_c10_last_msg_update (fresh 120 false 0) ⟨240, 1, 2, 1⟩ 10 5 14 false [] 0
  exact ⟨h1 (by decide) (by decide), h3 (by decide) (by decide) (by norm_num)⟩

/-- C2 counterexample: the quantizer follows Python 3 `round`, which rounds
ties to even, not half away from zero. With `accumulated_seconds = 5`,
`ticks_per_beat = 1`, `tempo_bpm = 30`, the exact tick value is 2.5: the
code yields 2, while the claimed rounding yields 3. -/
theorem spec_c2_counterexample :
    miditimeOf 5 1 30 = 2 ∧
    roundHalfAwayFromZeroSpec ((5 : ℚ) * 1 * 30 / 60) = 3 ∧
    miditimeOf 5 1 30 ≠ roundHalfAwayFromZeroSpec ((5 : ℚ) * 1 * 30 / 60) := by
  refine ⟨?_, ?_, ?_⟩
  · norm_num [miditimeOf, second2tick, bpm2tempo, pyRound]
  · norm_num [roundHalfAwayFromZeroSpec]
  · norm_num [miditimeOf, second2tick, bpm2tempo, pyRound, roundHalfAwayFromZeroSpec]

/-- C2 amended: whenever `60000000 / tempo_bpm` is exactly an integer
(so `mido.bpm2tempo` introduces no rounding of its own, as with 120 bpm),
the quantizer computes `round(accumulated_seconds * ticks_per_beat *
tempo_bpm / 60)` where `round` is nearest-integer with ties to even; and
with `tempo_bpm = 120`, `ticks_per_beat = 480`, an elapsed gap of exactly
0.5 s quantizes to exactly 480 ticks. -/
theorem spec_c2_quantizer (s tpb bpm : ℚ) (t : ℤ)
    (ht : (t : ℚ) * bpm = 60 * 1000000) :
    miditimeOf s tpb bpm = pyRound (s * tpb * bpm / 60) ∧
    miditimeOf (1/2) 480 120 = 480 := by
  constructor
  · unfold miditimeOf
    rw [bpm2tempo_exact bpm t ht, second2tick_exact s tpb bpm t ht]
  · norm_num [miditimeOf, second2tick, bpm2tempo, pyRound]

/-- Witness for C2: at 120 bpm (tempo 500000 µs/beat exactly) and 480
ticks per beat, half a second quantizes to `round(0.5 * 480 * 120 / 60)`,
which is exactly 480. -/
theorem spec_c2_quantizer_witness :
    miditimeOf (1/2) 480 120 = pyRound ((1/2 : ℚ) * 480 * 120 / 60) ∧
    miditimeOf (1/2) 480 120 = 480 :=
  spec_c2_quantizer (1/2) 480 120 500000 (by norm_num)

/-- C7 counterexample: on the non-interrupt exception path the process does
reach exit code 1, but `sys.exit(1)` sits inside the handler, before the
final `save_track` at the bottom of the script, so no final flush is
attempted — and the handler's own logging call fails (its format string has
three specifiers but only two arguments are applied to it). -/
theorem spec_c7_counterexample :
    (runShutdown Outcome.err).finalFlush = false ∧
    (runShutdown Outcome.err).handlerLogOk = false := by
  decide

/-- C7 amended: a user interrupt is not an error: it leads to a final flush
of the current track and exit code 0. Any other exception ends the process
with exit code 1 but without the final flush, and the handler's logging
call itself fails because of a format-string/argument arity mismatch. -/
theorem spec_c7_shutdown :
    runShutdown Outcome.interrupt = ⟨0, true, true⟩ ∧
    runShutdown Outcome.err = ⟨1, false, false⟩ := by
  decide

/-- C5 counterexample: `wait_first_event` accepts any event whose status is
neither 254 nor 0 — for example 0xFA (MIDI real-time start) — but replaying
such an event through the classifier appends nothing, so the buffered
first event can appear zero times in the resulting track. -/
theorem spec_c5_counterexample :
    wait_first_event [((⟨250, 0, 0, 1⟩ : RawEvent), (0 : ℚ))] =
      some ((⟨250, 0, 0, 1⟩, 0), []) ∧
    (start_recording 120 false (some ⟨250, 0, 0, 1⟩) 0 0).track.length ≠ 1 := by
  constructor
  · rfl
  · rw [start_recording_some, call_fst_track_unrecognized _ _ _ (by decide)]
    simp [fresh]

/-- C5 amended: the buffered first event is replayed through the classifier
exactly once and is never duplicated: when it is a NoteOn, NoteOff or
ControlChange it contributes exactly one track message — the first message
of the track, with everything later in the session appended after it; when
its status nibble is unrecognized it contributes zero messages; and when it
is one of the four kwarg-broken recognized kinds the replay raises
ValueError in `start_recording` on the program thread (reaching the
top-level handler, exit code 1) and it likewise appears zero times. -/
theorem spec_c5_first_event_replay (tempo : ℚ) (dbg : Bool) (tlm now : ℚ)
    (e : RawEvent) (evs : List (RawEvent × ℚ)) :
    (e.status / 16 = STAT_NON ∨ e.status / 16 = STAT_NOFF ∨
        e.status / 16 = STAT_CCHNG →
      ∃ tl, (runRec (start_recording tempo dbg (some e) tlm now) evs).track =
        ⟨kindOf (e.status / 16), e.status % 16, e.data1, e.data2,
          miditimeOf (0 + e.delta) 480 tempo⟩ :: tl) ∧
    (¬ (8 ≤ e.status / 16 ∧ e.status / 16 ≤ 14) →
      (start_recording tempo dbg (some e) tlm now).track = []) ∧
    (callRaises e = true →
      (start_recording tempo dbg (some e) tlm now).track = []) := by
  refine ⟨fun h => ?_, fun h => ?_, fun h => ?_⟩
  · have h8 : 8 ≤ e.status / 16 := by
      rcases h with h | h | h <;> rw [h] <;> decide
    have h14 : e.status / 16 ≤ 14 := by
      rcases h with h | h | h <;> rw [h] <;> decide
    have hok : messageRaises (kindOf (e.status / 16)) = false := by
      rcases h with h | h | h <;> rw [h] <;> decide
    obtain ⟨tl, htl⟩ := runRec_track_append evs (start_recording tempo dbg (some e) tlm now)
    refine ⟨tl, ?_⟩
    rw [htl, start_recording_track_recognized tempo dbg e tlm now h8 h14 hok]
    rfl
  · rw [start_recording_some, call_fst_track_unrecognized _ _ _ h]
    rfl
  · rw [start_recording_some, (call_raise_state _ _ _ h).1]
    rfl

/-- Witness for C5: a NoteOn first event (status 0x90) becomes the head of
the track of a session with no further events. -/
theorem spec_c5_first_event_replay_witness :
    ∃ tl, (runRec (start_recording 120 false (some ⟨144, 60, 100, 1/2⟩) 0 0) []).track =
      (⟨kindOf (144 / 16), 144 % 16, 60, 100, miditimeOf (0 + 1/2) 480 120⟩ : Message) :: tl :=
  (spec_c5_first_event_replay 120 false 0 0 ⟨144, 60, 100, 1/2⟩ []).1 (Or.inl (by decide))

/-- C1 counterexample: each recorded event is stamped with the quantization
of the whole accumulated time since the last note boundary, not with a
delta from the previous recorded event; so with a ControlChange 1 s after a
NoteOn and a NoteOff 1 s after that, the ticks emitted over the span
between the two note events sum to 960 + 1920 = 2880, while the
quantization of the 2 s of real time is 1920 — an error of 960 ticks,
far above 1. -/
theorem spec_c1_counterexample :
    (runRec (fresh 120 false 0)
        [(⟨144, 60, 100, 0⟩, 0), (⟨176, 7, 100, 1⟩, 0), (⟨128, 60, 0, 1⟩, 0)]).track =
      [⟨MsgType.note_on, 0, 60, 100, 0⟩, ⟨MsgType.control_change, 0, 7, 100, 960⟩,
       ⟨MsgType.note_off, 0, 60, 0, 1920⟩] ∧
    trackTicksSum ((runRec (fresh 120 false 0)
        [(⟨144, 60, 100, 0⟩, 0), (⟨176, 7, 100, 1⟩, 0), (⟨128, 60, 0, 1⟩, 0)]).track.drop 1) =
      2880 ∧
    miditimeOf (1 + 1) 480 120 = 1920 ∧
    ¬ (|(2880 : ℤ) - 1920| ≤ 1) := by
  have h : (runRec (fresh 120 false 0)
        [(⟨144, 60, 100, 0⟩, 0), (⟨176, 7, 100, 1⟩, 0), (⟨128, 60, 0, 1⟩, 0)]).track =
      [⟨MsgType.note_on, 0, 60, 100, 0⟩, ⟨MsgType.control_change, 0, 7, 100, 960⟩,
       ⟨MsgType.note_off, 0, 60, 0, 1920⟩] := by
    norm_num [runRec, call, fresh, miditimeOf, second2tick, bpm2tempo, pyRound,
      STAT_NON, STAT_NOFF, STAT_PKEYPR, STAT_CCHNG, STAT_PCHNG, STAT_CHANPR,
      STAT_PWHEEL, messageRaises_note_on, messageRaises_note_off,
      messageRaises_control_change]
  refine ⟨h, ?_, ?_, by norm_num⟩
  · rw [h]
    norm_num [trackTicksSum]
  · norm_num [miditimeOf, second2tick, bpm2tempo, pyRound]

/-- C1 amended: the tick value emitted for a NoteOn/NoteOff event equals the
quantization of the total delta_seconds accumulated since the last reset
(rounding error 0), and the accumulator is reset afterwards; hence when no
track messages are emitted between two consecutive note events (only
unrecognized-status or active-sense events intervene), the sum of tick
values emitted over that span equals the quantization of the real-time sum
exactly. When recognized non-note events intervene, each of them carries
the full accumulated tick count rather than a delta, so the emitted sum
over the span can exceed that quantization by far more than 1 tick. -/
theorem spec_c1_note_delta (st : RecState) (pre : List (RawEvent × ℚ)) (e : RawEvent)
    (now : ℚ) (h0 : st.abstime = 0)
    (hpre : ∀ p ∈ pre, ¬ (8 ≤ p.1.status / 16 ∧ p.1.status / 16 ≤ 14))
    (he : e.status / 16 = STAT_NON ∨ e.status / 16 = STAT_NOFF) :
    trackTicksSum ((call (runRec st pre) e now).1.track) - trackTicksSum st.track =
      miditimeOf (deltaSum pre + e.delta) st.ticks_per_beat st.tempo ∧
    (call (runRec st pre) e now).1.abstime = 0 := by
  obtain ⟨htr, hab⟩ := runRec_nonemitting pre st hpre
  have h8 : 8 ≤ e.status / 16 := by
    rcases he with h | h <;> simp [h, STAT_NON, STAT_NOFF]
  have h14 : e.status / 16 ≤ 14 := by
    rcases he with h | h <;> simp [h, STAT_NON, STAT_NOFF]
  have hok : messageRaises (kindOf (e.status / 16)) = false := by
    rcases he with h | h <;> rw [h] <;> decide
  constructor
  · rw [call_fst_track_recognized _ _ _ h8 h14 hok, htr, hab, h0,
      runRec_fst_ticks_per_beat, runRec_fst_tempo]
    simp [trackTicksSum]
  · rw [call_fst_abstime, if_pos he]

/-- Witness for C1: after an active-sense event consuming 1 s, a NoteOn
1 s later is stamped with the quantization of the full 2 s, namely
1920 ticks, and the accumulator resets. -/
theorem spec_c1_note_delta_witness :
    trackTicksSum ((call (runRec (fresh 120 false 0) [(⟨254, 0, 0, 1⟩, 0)])
        ⟨144, 60, 100, 1⟩ 0).1.track) - trackTicksSum (fresh 120 false 0).track =
      miditimeOf (deltaSum [((⟨254, 0, 0, 1⟩ : RawEvent), (0 : ℚ))] + 1) 480 120 ∧
    (call (runRec (fresh 120 false 0) [(⟨254, 0, 0, 1⟩, 0)]) ⟨144, 60, 100, 1⟩ 0).1.abstime = 0 :=
  spec_c1_note_delta (fresh 120 false 0) [(⟨254, 0, 0, 1⟩, 0)] ⟨144, 60, 100, 1⟩ 0
    rfl (by decide) (by decide)

/-- C6 counterexample: after the first segment (one NoteOn) rotates out, a
new first event of status 0xC0 (ProgramChange) raises ValueError while being
replayed in `start_recording` on the program thread, so the process dies
through the top-level handler: only ONE file is ever persisted and the exit
code is 1 — not the claimed two files. -/
theorem spec_c6_counterexample :
    autoOutcome (runAutoE 5 false (mainStartE false 0 ⟨144, 60, 100, 0⟩ 10)
        [Inp.poll 16, Inp.ev ⟨192, 5, 0, 1⟩ 16]) =
      ([((0 : ℚ), [⟨MsgType.note_on, 0, 60, 100, 0⟩])], ⟨1, false, false⟩) ∧
    [((0 : ℚ), [(⟨MsgType.note_on, 0, 60, 100, 0⟩ : Message)])].length ≠ 2 := by
  have hm : start_recording 120 false (some ⟨144, 60, 100, 0⟩) 10 10 =
      ⟨120, false, 0, [⟨MsgType.note_on, 0, 60, 100, 0⟩], 10, 480⟩ := by
    rw [start_recording_some]
    norm_num [call, fresh, STAT_NON, messageRaises_note_on, miditimeOf,
      second2tick, bpm2tempo, pyRound]
  refine ⟨?_, by norm_num⟩
  rw [mainStartE, if_neg (by decide), hm, runAutoE_cons,
    autoStepE_poll_rotate 5 false
      ⟨120, false, 0, [⟨MsgType.note_on, 0, 60, 100, 0⟩], 10, 480⟩ [] 0 16
      (by norm_num),
    runAutoE_cons]
  norm_num [autoStepE, autoOutcome, runAutoE_nil, callRaises, kindOf,
    STAT_NON, STAT_NOFF, STAT_PKEYPR, STAT_CCHNG, STAT_PCHNG,
    messageRaises_program_change, runShutdown_err]

/-- C6 amended: in auto mode, a recorded segment followed by a poll past the
idle timeout and then a newly accepted first event of a kind the recorder
can actually append (NoteOn, NoteOff or ControlChange) yields exactly two
persisted files: the first holds exactly the first segment's messages under
the filename stamped at startup, the second holds exactly the second
segment's messages under the filename stamped at its own start; the second
segment's first message is quantized from a fresh accumulator starting at
0; and the two filename stamps are distinct. If the new first event is one
of the four kwarg-broken kinds instead, its replay raises on the program
thread and no second file is produced (see the counterexample). -/
theorem spec_c6_auto_rotation
    (timeout : ℚ) (dbg : Bool) (tinit t0 tcut tf : ℚ) (e0 f0 : RawEvent)
    (evs1 evs2 : List (RawEvent × ℚ))
    (he0 : callRaises e0 = false)
    (hf0 : f0.status ≠ 254 ∧ f0.status ≠ 0)
    (hrec : f0.status / 16 = STAT_NON ∨ f0.status / 16 = STAT_NOFF ∨
      f0.status / 16 = STAT_CCHNG)
    (hcut : (runRec (start_recording 120 dbg (some e0) t0 t0) evs1).timeLastMsg +
      timeout < tcut)
    (hname : tinit ≠ tf) :
    autoOutcome (runAutoE timeout dbg (mainStartE dbg tinit e0 t0)
        ((evs1.map fun p => Inp.ev p.1 p.2) ++
          Inp.poll tcut :: Inp.ev f0 tf :: (evs2.map fun p => Inp.ev p.1 p.2))) =
      ([(tinit, (runRec (start_recording 120 dbg (some e0) t0 t0) evs1).track),
        (tf, (runRec (start_recording 120 dbg (some f0) tf tf) evs2).track)],
       runShutdown Outcome.interrupt) ∧
    (runRec (start_recording 120 dbg (some f0) tf tf) evs2).track.head? =
      some ⟨kindOf (f0.status / 16), f0.status % 16, f0.data1, f0.data2,
        miditimeOf (0 + f0.delta) 480 120⟩ ∧
    tinit ≠ tf := by
  have h8 : 8 ≤ f0.status / 16 := by
    rcases hrec with h | h | h <;> rw [h] <;> decide
  have h14 : f0.status / 16 ≤ 14 := by
    rcases hrec with h | h | h <;> rw [h] <;> decide
  have hok : messageRaises (kindOf (f0.status / 16)) = false := by
    rcases hrec with h | h | h <;> rw [h] <;> decide
  have hcr : callRaises f0 = false := by
    rw [callRaises, if_neg (status_ne_254_of_nibble_le f0 h14), if_pos ⟨h8, h14⟩]
    exact hok
  refine ⟨?_, ?_, hname⟩
  · rw [mainStartE, if_neg (by simp [he0]), runAutoE_append,
      runAutoE_events timeout dbg evs1 (start_recording 120 dbg (some e0) t0 t0) [] tinit,
      runAutoE_cons, autoStepE_poll_rotate _ _ _ _ _ _ hcut,
      runAutoE_cons, autoStepE_ev_accept_ok _ _ _ _ _ _ _ hf0 hcr,
      runAutoE_events]
    rfl
  · obtain ⟨tl, htl⟩ := runRec_track_append evs2 (start_recording 120 dbg (some f0) tf tf)
    rw [htl, start_recording_track_recognized _ _ _ _ _ h8 h14 hok]
    rfl

/-- Witness for C6: a NoteOn at t = 10, a poll at t = 16 with a 5 s timeout,
then a new NoteOn at t = 16 produce two files: one holding only the first
note and one holding only the second, the latter quantized from 0. -/
theorem spec_c6_auto_rotation_witness :
    autoOutcome (runAutoE 5 false (mainStartE false 0 ⟨144, 60, 100, 0⟩ 10)
        (([] : List (RawEvent × ℚ)).map (fun p => Inp.ev p.1 p.2) ++
          Inp.poll 16 :: Inp.ev ⟨144, 62, 100, 1⟩ 16 ::
            (([] : List (RawEvent × ℚ)).map fun p => Inp.ev p.1 p.2))) =
      ([(0, (runRec (start_recording 120 false (some ⟨144, 60, 100, 0⟩) 10 10) []).track),
        (16, (runRec (start_recording 120 false (some ⟨144, 62, 100, 1⟩) 16 16) []).track)],
       runShutdown Outcome.interrupt) ∧
    (runRec (start_recording 120 false (some ⟨144, 62, 100, 1⟩) 16 16) []).track.head? =
      some ⟨kindOf (144 / 16), 144 % 16, 62, 100, miditimeOf (0 + 1) 480 120⟩ ∧
    (0 : ℚ) ≠ 16 :=
  spec_c6_auto_rotation 5 false 0 10 16 16 ⟨144, 60, 100, 0⟩ ⟨144, 62, 100, 1⟩ [] []
    (by decide) (by decide) (Or.inl (by decide))
    (by
      rw [runRec_nil, start_recording_some, call_fst_timeLastMsg]
      norm_num [callRaises, kindOf, STAT_NON, messageRaises_note_on])
    (by norm_num)

end Midirec
